import Mathlib

/-!
Verification development for the agent_os repository: a shallow embedding of
the run-tracking / idempotent-insert protocol (src/main.py), the SQLite
store schema (src/core/db.py), the provider normalize functions
(src/plugins/openai.py, src/plugins/anthropic.py) and the CSV export
boundary (src/core/export.py), together with theorems settling the spec
claims about them.

Modelling conventions:
* SQLite values are dynamically typed; a cell is modelled by `Val`
  (integer, rational number standing in for a float, or string).
* A provider payload (a Python dict decoded from JSON) is an association
  list `Raw`; `dict.get(key, default)` is `rawGet`.
* The two tables are lists of rows inside a `DB` structure; the
  `UNIQUE(provider, date)` and `FOREIGN KEY` constraints of the schema in
  src/core/db.py are enforced by `insertResult`, the primary-key constraint
  on runs.id by `insertRun` (both return `Except`, modelling the SQLite
  error raised on a constraint violation).
* Wall-clock readings (started_at / created_at / finished_at timestamps and
  the target date) are parameters, as is the uuid4 run identifier and the
  process environment `env : String → Option String` (os.getenv).
* Network fetch functions are parameters of type
  `String → String → Except String Raw`: an exception raised by a fetch is
  an `Except.error` with the exception text.
* `run_collector` returns the list of committed database states (the code
  commits exactly twice on every path) plus the int exit code; a top-level
  `Except.error` models an exception escaping the engine (only possible
  from the runs-insert, which sits outside the try block in src/main.py).
-/

namespace AgentOS

/-- A dynamically typed SQLite / JSON scalar value. -/
inductive Val where
  | int : Int → Val
  | num : ℚ → Val
  | str : String → Val
deriving DecidableEq, Repr

/-- A raw provider payload: a JSON object as an association list. -/
abbrev Raw := List (String × Val)

/-- `dict.get(key, default)` on a raw payload. -/
def rawGet (raw : Raw) (key : String) (dflt : Val) : Val :=
  match raw.find? (fun p => p.1 == key) with
  | some p => p.2
  | none => dflt

/-- Rendering of a scalar for serialization / CSV cells. -/
def Val.render : Val → String
  | .int i => toString i
  | .num q => toString q
  | .str s => s

/-- Model of json.dumps on a payload (the exact text is irrelevant to the
claims; only that the verbatim payload is retained). -/
def serializeRaw (raw : Raw) : String :=
  String.intercalate ", " (raw.map (fun p => p.1 ++ ": " ++ p.2.render))

/-- Status column of a runs row; src/main.py writes exactly these four. -/
inductive RunStatus where
  | running
  | success
  | skipped
  | failed
deriving DecidableEq, Repr

/-- A row of the runs table (schema: src/core/db.py, CREATE TABLE runs). -/
structure Run where
  id : String
  plugin_name : String
  status : RunStatus
  started_at : String
  finished_at : Option String
  error : Option String
deriving DecidableEq, Repr

/-- A row of the results table (schema: src/core/db.py, CREATE TABLE results). -/
structure ResultRow where
  id : Nat
  run_id : String
  provider : String
  date : String
  tokens : Val
  cost : Val
  raw_json : String
  created_at : String
deriving DecidableEq, Repr

/-- The persistent store: the two tables plus the AUTOINCREMENT counter
backing results.id. -/
structure DB where
  runs : List Run := []
  results : List ResultRow := []
  next_result_id : Nat := 1
deriving DecidableEq, Repr

def emptyDB : DB := {}

/-- INSERT INTO runs: fails (SQLite IntegrityError) when the primary key
`id` already exists. -/
def insertRun (db : DB) (run : Run) : Except String DB :=
  if db.runs.any (fun r => r.id == run.id) then
    .error "UNIQUE constraint failed: runs.id"
  else
    .ok { db with runs := db.runs ++ [run] }

/-- INSERT INTO results: fails when `UNIQUE(provider, date)` is violated
(regardless of run_id), or when the foreign key to runs.id is violated;
otherwise appends the row with the next AUTOINCREMENT id. -/
def insertResult (db : DB) (run_id provider date : String)
    (tokens cost : Val) (raw_json created_at : String) : Except String DB :=
  if db.results.any (fun r => r.provider == provider && r.date == date) then
    .error "UNIQUE constraint failed: results.provider, results.date"
  else if db.runs.any (fun r => r.id == run_id) = false then
    .error "FOREIGN KEY constraint failed"
  else
    .ok { db with
          results := db.results ++
            [{ id := db.next_result_id, run_id := run_id, provider := provider,
               date := date, tokens := tokens, cost := cost,
               raw_json := raw_json, created_at := created_at }],
          next_result_id := db.next_result_id + 1 }

/-- UPDATE runs SET ... WHERE id = ?. -/
def updateRun (db : DB) (id : String) (f : Run → Run) : DB :=
  { db with runs := db.runs.map (fun r => if r.id == id then f r else r) }

/-- SELECT id FROM results WHERE provider = ? AND date = ? (the explicit
idempotency pre-check in run_collector). -/
def hasResult (db : DB) (provider date : String) : Bool :=
  db.results.any (fun r => r.provider == provider && r.date == date)

/-- Lookup of the runs row with a given id. -/
def findRun (db : DB) (id : String) : Option Run :=
  db.runs.find? (fun r => r.id == id)

/-- Python truthiness of an os.getenv result: None and "" are falsy. -/
def truthy : Option String → Bool
  | none => false
  | some s => !(s == "")

/-- UPDATE runs SET status = ?, finished_at = ? WHERE id = ? (the skipped
and success transitions, which leave the error column untouched). -/
def setRunOutcome (st : RunStatus) (fin : String) (r : Run) : Run :=
  { r with status := st, finished_at := some fin }

/-- UPDATE runs SET status = ?, finished_at = ?, error = ? WHERE id = ?
(the failed transition). -/
def setRunFailed (fin : String) (e : String) (r : Run) : Run :=
  { r with status := .failed, finished_at := some fin, error := some e }

/-- The canonical shape returned by the normalize functions. -/
structure Normalized where
  provider : String
  date : String
  tokens : Val
  cost : Val
  raw_json : String
deriving DecidableEq, Repr

/-- normalize_openai_data from src/plugins/openai.py. -/
def normalize_openai_data (raw_data : Raw) (date : String) : Normalized :=
  { provider := "OpenAI"
    date := date
    tokens := rawGet raw_data "total_tokens" (.int 0)
    cost := rawGet raw_data "total_cost" (.num 0)
    raw_json := serializeRaw raw_data }

/-- normalize_anthropic_data from src/plugins/anthropic.py. -/
def normalize_anthropic_data (raw_data : Raw) (date : String) : Normalized :=
  { provider := "Anthropic"
    date := date
    tokens := rawGet raw_data "total_tokens" (.int 0)
    cost := rawGet raw_data "total_cost" (.num 0)
    raw_json := serializeRaw raw_data }

/-- The body of the try block of run_collector in src/main.py: credential
resolution, idempotency pre-check, fetch, normalize, result insert and the
success transition; an `Except.error` is the exception the except-clause
catches. -/
def collectorAttempt (provider_name : String)
    (fetch_fn : String → String → Except String Raw)
    (normalize_fn : Raw → String → Normalized)
    (api_key_name : String) (env : String → Option String)
    (run_id date created_at finished_at : String)
    (db1 : DB) : Except String (DB × Nat) :=
  if truthy (env api_key_name) = false then
    .error (api_key_name ++ " not found in .env")
  else if hasResult db1 provider_name date then
    .ok (updateRun db1 run_id (setRunOutcome .skipped finished_at), 0)
  else
    match fetch_fn ((env api_key_name).getD "") date with
    | .error e => .error e
    | .ok raw_data =>
      let normalized := normalize_fn raw_data date
      match insertResult db1 run_id normalized.provider normalized.date
          normalized.tokens normalized.cost normalized.raw_json created_at with
      | .error e => .error e
      | .ok db2 =>
        .ok (updateRun db2 run_id (setRunOutcome .success finished_at), 0)

/-- provider_name.lower(): per-character ASCII lowercase. -/
def pyLower (s : String) : String :=
  String.mk (s.data.map Char.toLower)

/-- The runs row inserted at the start of run_collector (status=running,
finished_at and error NULL). -/
def startedRun (provider_name run_id started_at : String) : Run :=
  { id := run_id
    plugin_name := pyLower provider_name ++ "_collector"
    status := .running
    started_at := started_at
    finished_at := none
    error := none }

/-- run_collector from src/main.py. Returns the committed database states
in order (the code commits exactly twice: once after the runs-insert, once
at the terminal transition) and the exit code 0 or 1. The outer `Except`
can only be an error if the runs-insert itself fails (duplicate uuid),
which in the source sits before the try block and would propagate. -/
def run_collector (provider_name : String)
    (fetch_fn : String → String → Except String Raw)
    (normalize_fn : Raw → String → Normalized)
    (api_key_name : String) (env : String → Option String)
    (run_id date started_at created_at finished_at : String)
    (db : DB) : Except String (List DB × Nat) :=
  match insertRun db (startedRun provider_name run_id started_at) with
  | .error e => .error e
  | .ok db1 =>
    match collectorAttempt provider_name fetch_fn normalize_fn api_key_name env
        run_id date created_at finished_at db1 with
    | .ok (db2, code) => .ok ([db1, db2], code)
    | .error e =>
      .ok ([db1, updateRun db1 run_id (setRunFailed finished_at e)], 1)

/-- The final committed database state and exit code of one run_collector
invocation. -/
def runCollectorFinal (provider_name : String)
    (fetch_fn : String → String → Except String Raw)
    (normalize_fn : Raw → String → Normalized)
    (api_key_name : String) (env : String → Option String)
    (run_id date started_at created_at finished_at : String)
    (db : DB) : Except String (DB × Nat) :=
  match run_collector provider_name fetch_fn normalize_fn api_key_name env
      run_id date started_at created_at finished_at db with
  | .error e => .error e
  | .ok (commits, code) => .ok (commits.getLastD db, code)

/-- One registry entry of run_all_collectors in src/main.py:
(name, fetch_fn, normalize_fn, env_var_name). -/
structure CollectorCfg where
  provider : String
  fetch : String → String → Except String Raw
  normalize : Raw → String → Normalized
  key_name : String

/-- The ambient nondeterminism of one collection attempt: the uuid4 run id
and the wall-clock readings taken during it. -/
structure RunMeta where
  run_id : String
  started_at : String
  created_at : String
  finished_at : String
deriving DecidableEq, Repr

/-- The provider loop of run_all_collectors in src/main.py: providers whose
credential is falsy are skipped before the engine runs (counted in
skipped_count); every other provider is attempted and its exit code
recorded in results. Returns the final store, the attempted
(provider, exit code) list, and skipped_count. -/
def runAllLoop (items : List (CollectorCfg × RunMeta))
    (env : String → Option String) (date : String)
    (db : DB) : Except String (DB × List (String × Nat) × Nat) :=
  match items with
  | [] => .ok (db, [], 0)
  | (c, m) :: rest =>
    if truthy (env c.key_name) = false then
      match runAllLoop rest env date db with
      | .error e => .error e
      | .ok (db2, res, sk) => .ok (db2, res, sk + 1)
    else
      match runCollectorFinal c.provider c.fetch c.normalize c.key_name env
          m.run_id date m.started_at m.created_at m.finished_at db with
      | .error e => .error e
      | .ok (db1, code) =>
        match runAllLoop rest env date db1 with
        | .error e => .error e
        | .ok (db2, res, sk) => .ok (db2, (c.provider, code) :: res, sk)

/-- The aggregate exit code computed at the end of run_all_collectors:
failure when zero collectors were attempted, else success exactly when
every attempted collector returned 0. -/
def runAllAggregate (results : List (String × Nat)) : Nat :=
  if results.length == 0 then 1
  else if results.countP (fun r => r.2 == 0) == results.length then 0
  else 1

/-- The registry of src/main.py with the two network fetch functions as
parameters. -/
def collectorsRegistry (fetchO fetchA : String → String → Except String Raw) :
    List CollectorCfg :=
  [{ provider := "OpenAI", fetch := fetchO,
     normalize := normalize_openai_data, key_name := "OPENAI_API_KEY" },
   { provider := "Anthropic", fetch := fetchA,
     normalize := normalize_anthropic_data, key_name := "ANTHROPIC_API_KEY" }]

/-- run_all_collectors from src/main.py. -/
def run_all_collectors (fetchO fetchA : String → String → Except String Raw)
    (env : String → Option String) (date : String) (m1 m2 : RunMeta)
    (db : DB) : Except String (DB × Nat) :=
  match runAllLoop ((collectorsRegistry fetchO fetchA).zip [m1, m2]) env date db with
  | .error e => .error e
  | .ok (db2, results, _sk) => .ok (db2, runAllAggregate results)

/-- ALLOWED_TABLES from src/core/export.py. -/
def ALLOWED_TABLES : List String := ["results", "runs"]

/-- The columns PRAGMA table_info reports for the results table
(schema in src/core/db.py). -/
def resultsColumns : List String :=
  ["id", "run_id", "provider", "date", "tokens", "cost", "raw_json", "created_at"]

/-- The columns PRAGMA table_info reports for the runs table
(schema in src/core/db.py); note there is no created_at column. -/
def runsColumns : List String :=
  ["id", "plugin_name", "status", "started_at", "finished_at", "error"]

/-- Insert a result row into a list that is already sorted by created_at
descending (SQLite ORDER BY created_at DESC on the TEXT column). -/
def insertByCreatedDesc (x : ResultRow) : List ResultRow → List ResultRow
  | [] => [x]
  | y :: ys =>
    if y.created_at ≤ x.created_at then x :: y :: ys
    else y :: insertByCreatedDesc x ys

/-- Model of SELECT * FROM results ORDER BY created_at DESC. -/
def sortResultsDesc : List ResultRow → List ResultRow
  | [] => []
  | x :: xs => insertByCreatedDesc x (sortResultsDesc xs)

/-- The status column text written by src/main.py. -/
def RunStatus.render : RunStatus → String
  | .running => "running"
  | .success => "success"
  | .skipped => "skipped"
  | .failed => "failed"

/-- A CSV data row for one results row, cells in column order. -/
def renderResultRow (r : ResultRow) : List String :=
  [toString r.id, r.run_id, r.provider, r.date,
   r.tokens.render, r.cost.render, r.raw_json, r.created_at]

/-- A CSV data row for one runs row, cells in column order (SQLite NULL
rendered as the empty cell). -/
def renderRun (r : Run) : List String :=
  [r.id, r.plugin_name, r.status.render, r.started_at,
   r.finished_at.getD "", r.error.getD ""]

/-- export_results_to_csv from src/core/export.py, returning the lines of
the produced file (header row of column names, then the data rows) or the
ValueError raised before any query when the table name is outside the
allow-list. For the results table the source takes the
ORDER BY created_at DESC branch; the runs table has no created_at column,
so its rows come back in table order. -/
def export_results_to_csv (db : DB) (table : String) :
    Except String (List (List String)) :=
  if ALLOWED_TABLES.contains table = false then
    .error ("Invalid table name: " ++ table ++ ". Must be one of: results, runs")
  else if table == "results" then
    .ok (resultsColumns ::
      (if resultsColumns.contains "created_at" then sortResultsDesc db.results
       else db.results).map renderResultRow)
  else
    .ok (runsColumns :: db.runs.map renderRun)

/-- The lines printed by the no-argument branch of main in src/main.py
(the version banner log line and the two usage prints). -/
def usageMessages : List String :=
  ["Agent OS v0.3.0",
   "Usage: python main.py [--task TASK_NAME]",
   "Tasks: fetch_openai, fetch_anthropic, run_all, export"]

/-- main from src/main.py: argv includes the program name at index 0.
Returns the final store, the process exit code, and the messages main
itself emits (the usage text, or the unknown-task error line). The
schema-initialization call is the identity on this model of the store,
whose type already carries the two tables. -/
def main (argv : List String)
    (fetchO fetchA : String → String → Except String Raw)
    (env : String → Option String) (date : String) (m1 m2 : RunMeta)
    (db : DB) : Except String (DB × Nat × List String) :=
  if argv.length < 2 then
    .ok (db, 1, usageMessages)
  else if argv.getD 1 "" == "--task" && 2 < argv.length then
    let task := argv.getD 2 ""
    if task == "fetch_openai" then
      match runCollectorFinal "OpenAI" fetchO normalize_openai_data
          "OPENAI_API_KEY" env m1.run_id date m1.started_at m1.created_at
          m1.finished_at db with
      | .error e => .error e
      | .ok (db2, code) => .ok (db2, code, [])
    else if task == "fetch_anthropic" then
      match runCollectorFinal "Anthropic" fetchA normalize_anthropic_data
          "ANTHROPIC_API_KEY" env m2.run_id date m2.started_at m2.created_at
          m2.finished_at db with
      | .error e => .error e
      | .ok (db2, code) => .ok (db2, code, [])
    else if task == "run_all" then
      match run_all_collectors fetchO fetchA env date m1 m2 db with
      | .error e => .error e
      | .ok (db2, code) => .ok (db2, code, [])
    else if task == "export" then
      match export_results_to_csv db "results" with
      | .error e => .error e
      | .ok _ => .ok (db, 0, [])
    else
      .ok (db, 1, ["Unknown task: " ++ task])
  else
    .ok (db, 0, [])

/-- Referential soundness of the store: no persisted result row references
a run whose status is failed. -/
def noFailedRef (db : DB) : Prop :=
  ∀ res ∈ db.results, ∀ ru ∈ db.runs, ru.id = res.run_id → ru.status ≠ .failed

/-- The uniqueness invariant of the results table: at most one row per
(provider, date) pair. -/
def uniquePD (db : DB) : Prop :=
  db.results.Pairwise (fun a b => ¬(a.provider = b.provider ∧ a.date = b.date))

/-- A concrete environment with both provider credentials set, for the
batch scenarios. -/
def envBothKeys : String → Option String := fun k =>
  if k == "OPENAI_API_KEY" then some "sk-test-openai" else
  if k == "ANTHROPIC_API_KEY" then some "sk-test-anthropic" else none

/-- Concrete run metadata for the OpenAI attempt in batch scenarios. -/
def metaO : RunMeta :=
  { run_id := "run-openai", started_at := "2024-01-02T00:00:01Z",
    created_at := "2024-01-02T00:00:02Z", finished_at := "2024-01-02T00:00:03Z" }

/-- Concrete run metadata for the Anthropic attempt in batch scenarios. -/
def metaA : RunMeta :=
  { run_id := "run-anthropic", started_at := "2024-01-02T00:00:04Z",
    created_at := "2024-01-02T00:00:05Z", finished_at := "2024-01-02T00:00:06Z" }

/-- A concrete run row used to instantiate theorems with hypotheses. -/
def demoRun : Run :=
  { id := "r1", plugin_name := "openai_collector", status := .running,
    started_at := "2024-01-02T00:00:00Z", finished_at := none, error := none }

/-- A concrete store holding one running run and no results. -/
def demoDB : DB := { runs := [demoRun], results := [], next_result_id := 1 }

/-- The store demoDB after inserting one result for (OpenAI, 2024-01-01). -/
def demoDB1 : DB :=
  { runs := [demoRun]
    results := [{ id := 1, run_id := "r1", provider := "OpenAI",
                  date := "2024-01-01", tokens := Val.int 500,
                  cost := Val.num 1, raw_json := "j",
                  created_at := "2024-01-02T00:00:02Z" }]
    next_result_id := 2 }

/-- The failed OpenAI run produced in the batch isolation scenario. -/
def failedORun (msg : String) : Run := { id := "run-openai", plugin_name := "openai_collector", status := .failed, started_at := "2024-01-02T00:00:01Z", finished_at := some "2024-01-02T00:00:03Z", error := some msg }

/-- The successful Anthropic run produced in the batch isolation scenario. -/
def successARun : Run := { id := "run-anthropic", plugin_name := "anthropic_collector", status := .success, started_at := "2024-01-02T00:00:04Z", finished_at := some "2024-01-02T00:00:06Z", error := none }

/-- The Anthropic result row produced in the batch isolation scenario. -/
def aResRow (rawA : Raw) : ResultRow := { id := 1, run_id := "run-anthropic", provider := "Anthropic", date := "2024-01-01", tokens := rawGet rawA "total_tokens" (.int 0), cost := rawGet rawA "total_cost" (.num 0), raw_json := serializeRaw rawA, created_at := "2024-01-02T00:00:05Z" }

/-- The raw payload of the spec scenario: total_tokens 500, total_cost 1.23. -/
def scenarioRaw : Raw := [("total_tokens", Val.int 500), ("total_cost", Val.num 1.23)]

/-! ### Helper lemmas about the store primitives -/

lemma bool_not_true {b : Bool} (h : (!b) = true) : b = false := by
  cases b
  · rfl
  · exact absurd h (by simp)

lemma any_eq_false_of_all_not {α : Type} {p : α → Bool} {l : List α}
    (h : l.all (fun a => !(p a)) = true) : l.any p = false := by
  induction l with
  | nil => rfl
  | cons x xs ih =>
    rw [List.all_cons, Bool.and_eq_true] at h
    rw [List.any_cons, ih h.2, bool_not_true h.1]
    rfl

lemma map_ite_eq_self {α : Type} {p : α → Bool} {f : α → α} {l : List α}
    (h : l.all (fun a => !(p a)) = true) :
    l.map (fun a => if p a then f a else a) = l := by
  induction l with
  | nil => rfl
  | cons x xs ih =>
    rw [List.all_cons, Bool.and_eq_true] at h
    simp [bool_not_true h.1, ih h.2]

lemma find_append_of_all_not {α : Type} {p : α → Bool} {l : List α} {x : α}
    (h : l.all (fun a => !(p a)) = true) (hx : p x = true) :
    (l ++ [x]).find? p = some x := by
  induction l with
  | nil => simp [List.find?, hx]
  | cons y ys ih =>
    rw [List.all_cons, Bool.and_eq_true] at h
    rw [List.cons_append, List.find?_cons_of_neg _ (by simp [bool_not_true h.1])]
    exact ih h.2

/-- updateRun on a store whose runs are fresh-for-id plus one freshly
appended row with that id rewrites only the appended row. -/
lemma updateRun_append (db : DB) (l : List Run) (run : Run) (id : String)
    (f : Run → Run) (hruns : db.runs = l ++ [run]) (hid : run.id = id)
    (hfresh : l.all (fun r => !(r.id == id)) = true) :
    updateRun db id f = { db with runs := l ++ [f run] } := by
  rw [updateRun, hruns, List.map_append, map_ite_eq_self hfresh]
  simp [hid]

/-! ### Branch lemmas for run_collector

Each lemma gives the exact pair of committed states and exit code of one
branch of the engine, under the freshness of the uuid4 run id. -/

section BranchLemmas

variable (provider_name : String)
  (fetch_fn : String → String → Except String Raw)
  (normalize_fn : Raw → String → Normalized)
  (api_key_name : String) (env : String → Option String)
  (run_id date started_at created_at finished_at : String) (db : DB)

lemma insertRun_fresh (run : Run)
    (hfresh : db.runs.all (fun r => !(r.id == run.id)) = true) :
    insertRun db run = .ok { db with runs := db.runs ++ [run] } := by
  rw [insertRun, any_eq_false_of_all_not hfresh]
  rfl

lemma run_collector_missing_key
    (hfresh : db.runs.all (fun r => !(r.id == run_id)) = true)
    (hkey : truthy (env api_key_name) = false) :
    run_collector provider_name fetch_fn normalize_fn api_key_name env
        run_id date started_at created_at finished_at db =
      .ok ([{ db with runs := db.runs ++ [startedRun provider_name run_id started_at] },
            { db with runs := db.runs ++
              [setRunFailed finished_at (api_key_name ++ " not found in .env")
                (startedRun provider_name run_id started_at)] }], 1) := by
  have hins := insertRun_fresh db (startedRun provider_name run_id started_at) hfresh
  have hupd := updateRun_append
    { db with runs := db.runs ++ [startedRun provider_name run_id started_at] }
    db.runs (startedRun provider_name run_id started_at) run_id
    (setRunFailed finished_at (api_key_name ++ " not found in .env"))
    rfl rfl hfresh
  simp only [run_collector, hins, collectorAttempt, hkey, if_true, hupd]

lemma run_collector_skip
    (hfresh : db.runs.all (fun r => !(r.id == run_id)) = true)
    (hkey : truthy (env api_key_name) = true)
    (hres : hasResult db provider_name date = true) :
    run_collector provider_name fetch_fn normalize_fn api_key_name env
        run_id date started_at created_at finished_at db =
      .ok ([{ db with runs := db.runs ++ [startedRun provider_name run_id started_at] },
            { db with runs := db.runs ++
              [setRunOutcome .skipped finished_at
                (startedRun provider_name run_id started_at)] }], 0) := by
  have hins := insertRun_fresh db (startedRun provider_name run_id started_at) hfresh
  have hupd := updateRun_append
    { db with runs := db.runs ++ [startedRun provider_name run_id started_at] }
    db.runs (startedRun provider_name run_id started_at) run_id
    (setRunOutcome .skipped finished_at) rfl rfl hfresh
  have hres1 : hasResult
      { db with runs := db.runs ++ [startedRun provider_name run_id started_at] }
      provider_name date = true := hres
  simp only [run_collector, hins, collectorAttempt, hkey, Bool.true_eq_false,
    if_false, hres1, if_true, hupd]

lemma run_collector_fetch_error (msg : String)
    (hfresh : db.runs.all (fun r => !(r.id == run_id)) = true)
    (hkey : truthy (env api_key_name) = true)
    (hres : hasResult db provider_name date = false)
    (hfetch : fetch_fn ((env api_key_name).getD "") date = .error msg) :
    run_collector provider_name fetch_fn normalize_fn api_key_name env
        run_id date started_at created_at finished_at db =
      .ok ([{ db with runs := db.runs ++ [startedRun provider_name run_id started_at] },
            { db with runs := db.runs ++
              [setRunFailed finished_at msg
                (startedRun provider_name run_id started_at)] }], 1) := by
  have hins := insertRun_fresh db (startedRun provider_name run_id started_at) hfresh
  have hupd := updateRun_append
    { db with runs := db.runs ++ [startedRun provider_name run_id started_at] }
    db.runs (startedRun provider_name run_id started_at) run_id
    (setRunFailed finished_at msg) rfl rfl hfresh
  have hres1 : hasResult
      { db with runs := db.runs ++ [startedRun provider_name run_id started_at] }
      provider_name date = false := hres
  simp only [run_collector, hins, collectorAttempt, hkey, Bool.true_eq_false,
    Bool.false_eq_true, if_false, hres1, hfetch, hupd]

lemma run_collector_success (raw : Raw)
    (hfresh : db.runs.all (fun r => !(r.id == run_id)) = true)
    (hkey : truthy (env api_key_name) = true)
    (hres : hasResult db provider_name date = false)
    (hfetch : fetch_fn ((env api_key_name).getD "") date = .ok raw)
    (hdup : db.results.any (fun r =>
      r.provider == (normalize_fn raw date).provider &&
      r.date == (normalize_fn raw date).date) = false) :
    run_collector provider_name fetch_fn normalize_fn api_key_name env
        run_id date started_at created_at finished_at db =
      .ok ([{ db with runs := db.runs ++ [startedRun provider_name run_id started_at] },
            { db with
              runs := db.runs ++
                [setRunOutcome .success finished_at
                  (startedRun provider_name run_id started_at)],
              results := db.results ++
                [{ id := db.next_result_id, run_id := run_id,
                   provider := (normalize_fn raw date).provider,
                   date := (normalize_fn raw date).date,
                   tokens := (normalize_fn raw date).tokens,
                   cost := (normalize_fn raw date).cost,
                   raw_json := (normalize_fn raw date).raw_json,
                   created_at := created_at }],
              next_result_id := db.next_result_id + 1 }], 0) := by
  have hins := insertRun_fresh db (startedRun provider_name run_id started_at) hfresh
  have hres1 : hasResult
      { db with runs := db.runs ++ [startedRun provider_name run_id started_at] }
      provider_name date = false := hres
  have hfk : (({ db with
      runs := db.runs ++ [startedRun provider_name run_id started_at] } : DB).runs.any
        (fun r => r.id == run_id)) = true := by
    simp [startedRun, List.any_append]
  have hinsres : insertResult
      { db with runs := db.runs ++ [startedRun provider_name run_id started_at] }
      run_id (normalize_fn raw date).provider (normalize_fn raw date).date
      (normalize_fn raw date).tokens (normalize_fn raw date).cost
      (normalize_fn raw date).raw_json created_at =
      .ok { db with
            runs := db.runs ++ [startedRun provider_name run_id started_at],
            results := db.results ++
              [{ id := db.next_result_id, run_id := run_id,
                 provider := (normalize_fn raw date).provider,
                 date := (normalize_fn raw date).date,
                 tokens := (normalize_fn raw date).tokens,
                 cost := (normalize_fn raw date).cost,
                 raw_json := (normalize_fn raw date).raw_json,
                 created_at := created_at }],
            next_result_id := db.next_result_id + 1 } := by
    rw [insertResult]
    simp only [hdup, hfk, Bool.false_eq_true, Bool.true_eq_false, if_false]
  have hupd := updateRun_append
    { db with
      runs := db.runs ++ [startedRun provider_name run_id started_at],
      results := db.results ++
        [{ id := db.next_result_id, run_id := run_id,
           provider := (normalize_fn raw date).provider,
           date := (normalize_fn raw date).date,
           tokens := (normalize_fn raw date).tokens,
           cost := (normalize_fn raw date).cost,
           raw_json := (normalize_fn raw date).raw_json,
           created_at := created_at }],
      next_result_id := db.next_result_id + 1 }
    db.runs (startedRun provider_name run_id started_at) run_id
    (setRunOutcome .success finished_at) rfl rfl hfresh
  simp only [run_collector, hins, collectorAttempt, hkey, Bool.true_eq_false,
    Bool.false_eq_true, if_false, hres1, hfetch, hinsres, hupd]

lemma run_collector_insert_error (raw : Raw)
    (hfresh : db.runs.all (fun r => !(r.id == run_id)) = true)
    (hkey : truthy (env api_key_name) = true)
    (hres : hasResult db provider_name date = false)
    (hfetch : fetch_fn ((env api_key_name).getD "") date = .ok raw)
    (hdup : db.results.any (fun r =>
      r.provider == (normalize_fn raw date).provider &&
      r.date == (normalize_fn raw date).date) = true) :
    run_collector provider_name fetch_fn normalize_fn api_key_name env
        run_id date started_at created_at finished_at db =
      .ok ([{ db with runs := db.runs ++ [startedRun provider_name run_id started_at] },
            { db with runs := db.runs ++
              [setRunFailed finished_at
                "UNIQUE constraint failed: results.provider, results.date"
                (startedRun provider_name run_id started_at)] }], 1) := by
  have hins := insertRun_fresh db (startedRun provider_name run_id started_at) hfresh
  have hres1 : hasResult
      { db with runs := db.runs ++ [startedRun provider_name run_id started_at] }
      provider_name date = false := hres
  have hinsres : insertResult
      { db with runs := db.runs ++ [startedRun provider_name run_id started_at] }
      run_id (normalize_fn raw date).provider (normalize_fn raw date).date
      (normalize_fn raw date).tokens (normalize_fn raw date).cost
      (normalize_fn raw date).raw_json created_at =
      .error "UNIQUE constraint failed: results.provider, results.date" := by
    rw [insertResult]
    simp only [hdup, if_true]
  have hupd := updateRun_append
    { db with runs := db.runs ++ [startedRun provider_name run_id started_at] }
    db.runs (startedRun provider_name run_id started_at) run_id
    (setRunFailed finished_at
      "UNIQUE constraint failed: results.provider, results.date")
    rfl rfl hfresh
  simp only [run_collector, hins, collectorAttempt, hkey, Bool.true_eq_false,
    Bool.false_eq_true, if_false, hres1, hfetch, hinsres, hupd]

end BranchLemmas

/-! ### Claim theorems -/

/-- C1: inserting two results with identical (provider, date) makes the
second insertion fail at the storage layer regardless of either run_id,
and consequently a store whose results are unique per (provider, date)
stays unique per (provider, date) across any successful insertion. -/
theorem resultUniquenessC1 :
    (∀ (db db1 : DB) (rid1 rid2 p d : String) (t1 c1 : Val) (j1 ca1 : String)
        (t2 c2 : Val) (j2 ca2 : String),
      insertResult db rid1 p d t1 c1 j1 ca1 = .ok db1 →
      insertResult db1 rid2 p d t2 c2 j2 ca2 =
        .error "UNIQUE constraint failed: results.provider, results.date") ∧
    (∀ (db db1 : DB) (rid p d : String) (t c : Val) (j ca : String),
      uniquePD db → insertResult db rid p d t c j ca = .ok db1 → uniquePD db1) := by
  constructor
  · intro db db1 rid1 rid2 p d t1 c1 j1 ca1 t2 c2 j2 ca2 h
    rw [insertResult] at h
    by_cases h1 : (db.results.any (fun r => r.provider == p && r.date == d)) = true
    · rw [if_pos h1] at h
      cases h
    · rw [if_neg h1] at h
      by_cases h2 : (db.runs.any (fun r => r.id == rid1)) = false
      · rw [if_pos h2] at h
        cases h
      · rw [if_neg h2] at h
        injection h with h3
        subst h3
        rw [insertResult]
        simp [List.any_append]
  · intro db db1 rid p d t c j ca hu h
    rw [insertResult] at h
    by_cases h1 : (db.results.any (fun r => r.provider == p && r.date == d)) = true
    · rw [if_pos h1] at h
      cases h
    · rw [if_neg h1] at h
      by_cases h2 : (db.runs.any (fun r => r.id == rid)) = false
      · rw [if_pos h2] at h
        cases h
      · rw [if_neg h2] at h
        injection h with h3
        subst h3
        have h1f : (db.results.any (fun r => r.provider == p && r.date == d)) = false := by
          cases hany : (db.results.any (fun r => r.provider == p && r.date == d))
          · rfl
          · exact absurd hany h1
        rw [uniquePD] at hu ⊢
        rw [List.pairwise_append]
        refine ⟨hu, by simp, ?_⟩
        intro a ha b hb
        simp only [List.mem_singleton] at hb
        subst hb
        intro hcontra
        have hall := List.any_eq_false.mp h1f a ha
        apply hall
        simp only [hcontra.1, hcontra.2]
        simp

/-- Witness for C1 at a concrete store: the second insertion for
(OpenAI, 2024-01-01) fails and uniqueness is preserved. -/
theorem resultUniquenessC1_witness :
    insertResult demoDB1 "r2" "OpenAI" "2024-01-01" (Val.int 2) (Val.num 2)
        "k" "2024-01-03T00:00:00Z" =
      .error "UNIQUE constraint failed: results.provider, results.date" ∧
    uniquePD demoDB1 :=
  ⟨resultUniquenessC1.1 demoDB demoDB1 "r1" "r2" "OpenAI" "2024-01-01"
      (Val.int 500) (Val.num 1) "j" "2024-01-02T00:00:02Z"
      (Val.int 2) (Val.num 2) "k" "2024-01-03T00:00:00Z" (by rfl),
   resultUniquenessC1.2 demoDB demoDB1 "r1" "OpenAI" "2024-01-01"
      (Val.int 500) (Val.num 1) "j" "2024-01-02T00:00:02Z"
      (by simp [uniquePD, demoDB]) (by rfl)⟩

/-- C2: when the store already holds a result for (provider, targetDate),
the engine records a new run that ends skipped with finished_at set,
inserts no result row, and returns the success-class exit code 0. -/
theorem idempotencySkipC2 :
    ∀ (provider_name api_key_name : String)
      (fetch_fn : String → String → Except String Raw)
      (normalize_fn : Raw → String → Normalized)
      (env : String → Option String)
      (run_id date started_at created_at finished_at : String) (db : DB),
      db.runs.all (fun r => !(r.id == run_id)) = true →
      truthy (env api_key_name) = true →
      hasResult db provider_name date = true →
      ∃ db1 dbF,
        run_collector provider_name fetch_fn normalize_fn api_key_name env
            run_id date started_at created_at finished_at db =
          .ok ([db1, dbF], 0) ∧
        dbF.results = db.results ∧
        ∃ r, findRun dbF run_id = some r ∧ r.status = .skipped ∧
          r.finished_at = some finished_at := by
  intro p key fetch norm env rid date sa ca fa db hfresh hkey hres
  refine ⟨_, _,
    run_collector_skip p fetch norm key env rid date sa ca fa db hfresh hkey hres,
    rfl, ?_⟩
  refine ⟨setRunOutcome .skipped fa (startedRun p rid sa), ?_, rfl, rfl⟩
  exact find_append_of_all_not hfresh (by simp [startedRun, setRunOutcome])

/-- Witness for C2: with a credential present and a result already stored
for (OpenAI, 2024-01-01), the engine skips. -/
theorem idempotencySkipC2_witness :
    (demoDB1.runs.all (fun r => !(r.id == "r2")) = true) ∧
    truthy (envBothKeys "OPENAI_API_KEY") = true ∧
    hasResult demoDB1 "OpenAI" "2024-01-01" = true ∧
    ∃ db1 dbF,
      run_collector "OpenAI" (fun _ _ => .error "network down")
          normalize_openai_data "OPENAI_API_KEY" envBothKeys
          "r2" "2024-01-01" "s" "c" "f" demoDB1 = .ok ([db1, dbF], 0) ∧
      dbF.results = demoDB1.results ∧
      ∃ r, findRun dbF "r2" = some r ∧ r.status = .skipped ∧
        r.finished_at = some "f" :=
  ⟨by decide, by decide, by decide,
   idempotencySkipC2 "OpenAI" "OPENAI_API_KEY" (fun _ _ => .error "network down")
     normalize_openai_data envBothKeys "r2" "2024-01-01" "s" "c" "f" demoDB1
     (by decide) (by decide) (by decide)⟩

/-- C3: every error raised inside one provider's attempt is caught at the
engine boundary and recorded on that attempt's run — a missing credential
(ValueError from resolution), a fetch error, and a failure of the Result
insert itself (UNIQUE constraint) each end the run failed with finished_at
set and error equal to the failure description (non-empty for a fetch
error whenever the exception text is), leave the results table untouched,
and return the non-fatal exit code 1 instead of propagating; and in a
batch the remaining provider is still attempted and can still succeed. -/
theorem failureIsolationC3 :
    (∀ (provider_name api_key_name : String)
       (fetch_fn : String → String → Except String Raw)
       (normalize_fn : Raw → String → Normalized)
       (env : String → Option String)
       (run_id date started_at created_at finished_at : String) (db : DB),
      db.runs.all (fun r => !(r.id == run_id)) = true →
      truthy (env api_key_name) = false →
      ∃ db1 dbF,
        run_collector provider_name fetch_fn normalize_fn api_key_name env
            run_id date started_at created_at finished_at db =
          .ok ([db1, dbF], 1) ∧
        dbF.results = db.results ∧
        ∃ r, findRun dbF run_id = some r ∧ r.status = .failed ∧
          r.finished_at = some finished_at ∧
          r.error = some (api_key_name ++ " not found in .env")) ∧
    (∀ (provider_name api_key_name : String)
       (fetch_fn : String → String → Except String Raw)
       (normalize_fn : Raw → String → Normalized)
       (env : String → Option String)
       (run_id date started_at created_at finished_at msg : String) (db : DB),
      db.runs.all (fun r => !(r.id == run_id)) = true →
      truthy (env api_key_name) = true →
      hasResult db provider_name date = false →
      fetch_fn ((env api_key_name).getD "") date = .error msg →
      ∃ db1 dbF,
        run_collector provider_name fetch_fn normalize_fn api_key_name env
            run_id date started_at created_at finished_at db =
          .ok ([db1, dbF], 1) ∧
        dbF.results = db.results ∧
        ∃ r, findRun dbF run_id = some r ∧ r.status = .failed ∧
          r.finished_at = some finished_at ∧ r.error = some msg ∧
          (msg ≠ "" → r.error ≠ some "")) ∧
    (∀ (provider_name api_key_name : String)
       (fetch_fn : String → String → Except String Raw)
       (normalize_fn : Raw → String → Normalized)
       (env : String → Option String)
       (run_id date started_at created_at finished_at : String) (db : DB)
       (raw : Raw),
      db.runs.all (fun r => !(r.id == run_id)) = true →
      truthy (env api_key_name) = true →
      hasResult db provider_name date = false →
      fetch_fn ((env api_key_name).getD "") date = .ok raw →
      db.results.any (fun r =>
        r.provider == (normalize_fn raw date).provider &&
        r.date == (normalize_fn raw date).date) = true →
      ∃ db1 dbF,
        run_collector provider_name fetch_fn normalize_fn api_key_name env
            run_id date started_at created_at finished_at db =
          .ok ([db1, dbF], 1) ∧
        dbF.results = db.results ∧
        ∃ r, findRun dbF run_id = some r ∧ r.status = .failed ∧
          r.finished_at = some finished_at ∧
          r.error =
            some "UNIQUE constraint failed: results.provider, results.date") ∧
    (∀ (msg : String) (rawA : Raw),
      run_all_collectors (fun _ _ => .error msg) (fun _ _ => .ok rawA)
          envBothKeys "2024-01-01" metaO metaA emptyDB =
        .ok ({ runs := [failedORun msg, successARun],
               results := [aResRow rawA], next_result_id := 2 }, 1) ∧
      (failedORun msg).plugin_name = "openai_collector" ∧
      (failedORun msg).status = .failed ∧ (failedORun msg).error = some msg ∧
      successARun.plugin_name = "anthropic_collector" ∧
      successARun.status = .success ∧
      (aResRow rawA).provider = "Anthropic" ∧
      (aResRow rawA).run_id = successARun.id) := by
  refine ⟨?_, ?_, ?_, ?_⟩
  · intro p key fetch norm env rid date sa ca fa db hfresh hkey
    refine ⟨_, _,
      run_collector_missing_key p fetch norm key env rid date sa ca fa db
        hfresh hkey, rfl, ?_⟩
    refine ⟨setRunFailed fa (key ++ " not found in .env") (startedRun p rid sa),
      ?_, rfl, rfl, rfl⟩
    exact find_append_of_all_not hfresh (by simp [startedRun, setRunFailed])
  · intro p key fetch norm env rid date sa ca fa msg db hfresh hkey hres hfetch
    refine ⟨_, _,
      run_collector_fetch_error p fetch norm key env rid date
        sa ca fa db msg hfresh hkey hres hfetch,
      rfl, ?_⟩
    refine ⟨setRunFailed fa msg (startedRun p rid sa), ?_, rfl, rfl, rfl, ?_⟩
    · exact find_append_of_all_not hfresh (by simp [startedRun, setRunFailed])
    · intro hne heq
      exact hne (Option.some.inj heq)
  · intro p key fetch norm env rid date sa ca fa db raw hfresh hkey hres hfetch hdup
    refine ⟨_, _,
      run_collector_insert_error p fetch norm key env rid date sa ca fa db
        raw hfresh hkey hres hfetch hdup,
      rfl, ?_⟩
    refine ⟨setRunFailed fa
      "UNIQUE constraint failed: results.provider, results.date"
      (startedRun p rid sa), ?_, rfl, rfl, rfl⟩
    exact find_append_of_all_not hfresh (by simp [startedRun, setRunFailed])
  · intro msg rawA
    exact ⟨rfl, rfl, rfl, rfl, rfl, rfl, rfl, rfl⟩

/-- Witness for C3 at concrete inputs, one per caught error source: a
missing credential against demoDB, a failing OpenAI fetch against the
empty store, and a Result insert rejected by the uniqueness constraint
(the engine invoked with the label openai while the stored row says
OpenAI, so the pre-check misses and the insert itself fails). -/
theorem failureIsolationC3_witness :
    ((demoDB.runs.all (fun r => !(r.id == "c3a")) = true) ∧
      truthy ((fun _ => (none : Option String)) "OPENAI_API_KEY") = false ∧
      ∃ db1 dbF,
        run_collector "OpenAI" (fun _ _ => .ok []) normalize_openai_data
            "OPENAI_API_KEY" (fun _ => none) "c3a" "2024-01-01" "s" "c" "f"
            demoDB = .ok ([db1, dbF], 1) ∧
        dbF.results = demoDB.results ∧
        ∃ r, findRun dbF "c3a" = some r ∧ r.status = .failed ∧
          r.finished_at = some "f" ∧
          r.error = some ("OPENAI_API_KEY" ++ " not found in .env")) ∧
    ((emptyDB.runs.all (fun r => !(r.id == "c3b")) = true) ∧
      truthy (envBothKeys "OPENAI_API_KEY") = true ∧
      hasResult emptyDB "OpenAI" "2024-01-01" = false ∧
      ∃ db1 dbF,
        run_collector "OpenAI" (fun _ _ => .error "boom") normalize_openai_data
            "OPENAI_API_KEY" envBothKeys "c3b" "2024-01-01" "s" "c" "f"
            emptyDB = .ok ([db1, dbF], 1) ∧
        dbF.results = emptyDB.results ∧
        ∃ r, findRun dbF "c3b" = some r ∧ r.status = .failed ∧
          r.finished_at = some "f" ∧ r.error = some "boom" ∧
          ("boom" ≠ "" → r.error ≠ some "")) ∧
    ((demoDB1.runs.all (fun r => !(r.id == "c3c")) = true) ∧
      hasResult demoDB1 "openai" "2024-01-01" = false ∧
      (demoDB1.results.any (fun r =>
        r.provider == (normalize_openai_data [] "2024-01-01").provider &&
        r.date == (normalize_openai_data [] "2024-01-01").date) = true) ∧
      ∃ db1 dbF,
        run_collector "openai" (fun _ _ => .ok []) normalize_openai_data
            "OPENAI_API_KEY" envBothKeys "c3c" "2024-01-01" "s" "c" "f"
            demoDB1 = .ok ([db1, dbF], 1) ∧
        dbF.results = demoDB1.results ∧
        ∃ r, findRun dbF "c3c" = some r ∧ r.status = .failed ∧
          r.finished_at = some "f" ∧
          r.error =
            some "UNIQUE constraint failed: results.provider, results.date") :=
  ⟨⟨by decide, rfl,
    failureIsolationC3.1 "OpenAI" "OPENAI_API_KEY" (fun _ _ => .ok [])
      normalize_openai_data (fun _ => none) "c3a" "2024-01-01" "s" "c" "f"
      demoDB (by decide) rfl⟩,
   ⟨by decide, by decide, by decide,
    failureIsolationC3.2.1 "OpenAI" "OPENAI_API_KEY" (fun _ _ => .error "boom")
      normalize_openai_data envBothKeys "c3b" "2024-01-01" "s" "c" "f" "boom"
      emptyDB (by decide) (by decide) (by decide) rfl⟩,
   ⟨by decide, by decide, by decide,
    failureIsolationC3.2.2.1 "openai" "OPENAI_API_KEY" (fun _ _ => .ok [])
      normalize_openai_data envBothKeys "c3c" "2024-01-01" "s" "c" "f"
      demoDB1 [] (by decide) (by decide) (by decide) rfl (by decide)⟩⟩

lemma countP_eq_length_iff {α : Type} (p : α → Bool) (l : List α) :
    (l.countP p = l.length) ↔ ∀ a ∈ l, p a = true := by
  induction l with
  | nil => simp
  | cons x xs ih =>
    rw [List.countP_cons, List.length_cons]
    by_cases hx : p x = true
    · rw [if_pos hx]
      constructor
      · intro h a ha
        rcases List.mem_cons.mp ha with h1 | h1
        · rw [h1]
          exact hx
        · exact (ih.mp (by omega)) a h1
      · intro h
        have hxs : xs.countP p = xs.length :=
          ih.mpr (fun a ha => h a (List.mem_cons_of_mem _ ha))
        omega
    · rw [if_neg hx]
      have hle : xs.countP p ≤ xs.length := List.countP_le_length _
      constructor
      · intro h
        exact absurd h (by omega)
      · intro h
        exact absurd (h x (List.mem_cons_self x xs)) hx

/-- C4: the batch runner returns the store produced by the provider loop
together with the aggregate exit code, and that code is 0 exactly when at
least one provider was attempted and every attempted provider returned 0
(success or skip); any failed attempt, or an empty attempted list (all
credentials missing), yields 1. -/
theorem batchAggregateC4 :
    ∀ (fetchO fetchA : String → String → Except String Raw)
      (env : String → Option String) (date : String) (m1 m2 : RunMeta)
      (db db2 : DB) (results : List (String × Nat)) (sk : Nat),
      runAllLoop ((collectorsRegistry fetchO fetchA).zip [m1, m2]) env date db =
        .ok (db2, results, sk) →
      run_all_collectors fetchO fetchA env date m1 m2 db =
        .ok (db2, runAllAggregate results) ∧
      (runAllAggregate results = 0 ↔ results ≠ [] ∧ ∀ r ∈ results, r.2 = 0) := by
  intro fO fA env date m1 m2 db db2 results sk h
  constructor
  · rw [run_all_collectors, h]
  · rw [runAllAggregate]
    by_cases hnil : results = []
    · subst hnil
      simp
    · have hlen : (results.length == 0) = false := by
        cases results with
        | nil => exact absurd rfl hnil
        | cons a as => rfl
      simp only [hlen, Bool.false_eq_true, if_false]
      by_cases hcnt : results.countP (fun r => r.2 == 0) = results.length
      · have hbeq : (results.countP (fun r => r.2 == 0) == results.length) = true := by
          simp [hcnt]
        simp only [hbeq, if_true]
        constructor
        · intro _
          refine ⟨hnil, ?_⟩
          intro r hr
          have := (countP_eq_length_iff _ _).mp hcnt r hr
          simpa using this
        · intro _
          trivial
      · have hbeq : (results.countP (fun r => r.2 == 0) == results.length) = false := by
          cases hb : (results.countP (fun r => r.2 == 0) == results.length)
          · rfl
          · have hb2 : results.countP (fun r => r.2 == 0) = results.length := by
              simpa using hb
            exact absurd hb2 hcnt
        simp only [hbeq, Bool.false_eq_true, if_false]
        constructor
        · intro h0
          exact absurd h0 one_ne_zero
        · rintro ⟨-, hall⟩
          refine absurd ((countP_eq_length_iff _ _).mpr ?_) hcnt
          intro a ha
          simp [hall a ha]

/-- Witness for C4: a fully unconfigured environment attempts zero
providers and the batch returns failure. -/
theorem batchAggregateC4_witness :
    runAllLoop ((collectorsRegistry (fun _ _ => .ok []) (fun _ _ => .ok [])).zip
        [metaO, metaA]) (fun _ => none) "2024-01-01" emptyDB =
      .ok (emptyDB, [], 2) ∧
    (run_all_collectors (fun _ _ => .ok []) (fun _ _ => .ok [])
        (fun _ => none) "2024-01-01" metaO metaA emptyDB =
      .ok (emptyDB, runAllAggregate []) ∧
    (runAllAggregate [] = 0 ↔
      ([] : List (String × Nat)) ≠ [] ∧ ∀ r ∈ ([] : List (String × Nat)), r.2 = 0)) :=
  ⟨rfl,
   batchAggregateC4 (fun _ _ => .ok []) (fun _ _ => .ok []) (fun _ => none)
     "2024-01-01" metaO metaA emptyDB emptyDB [] 2 rfl⟩

/-- Appending a run that no stored result references preserves the
no-result-references-a-failed-run invariant (results unchanged). -/
lemma noFailedRef_append (db : DB) (run : Run) (n : Nat)
    (hinv : noFailedRef db)
    (hfreshRes : db.results.all (fun r => !(r.run_id == run.id)) = true) :
    noFailedRef ⟨db.runs ++ [run], db.results, n⟩ := by
  intro res hres ru hru hid
  rcases List.mem_append.mp hru with h1 | h1
  · exact hinv res hres ru h1 hid
  · simp only [List.mem_singleton] at h1
    subst h1
    have h2 : (res.run_id == ru.id) = false :=
      bool_not_true (List.all_eq_true.mp hfreshRes res hres)
    have h3 : res.run_id = ru.id := hid.symm
    simp [h3] at h2

/-- Appending a non-failed run together with a result row referencing it
preserves the invariant, provided the run id is fresh among runs. -/
lemma noFailedRef_insert (db : DB) (run : Run) (row : ResultRow) (n : Nat)
    (hinv : noFailedRef db)
    (hstat : run.status ≠ .failed)
    (hrow : row.run_id = run.id)
    (hfreshRun : db.runs.all (fun r => !(r.id == run.id)) = true) :
    noFailedRef ⟨db.runs ++ [run], db.results ++ [row], n⟩ := by
  intro res hres ru hru hid
  rcases List.mem_append.mp hres with hres1 | hres1
  · rcases List.mem_append.mp hru with hru1 | hru1
    · exact hinv res hres1 ru hru1 hid
    · simp only [List.mem_singleton] at hru1
      subst hru1
      exact hstat
  · simp only [List.mem_singleton] at hres1
    subst hres1
    rcases List.mem_append.mp hru with hru1 | hru1
    · have h2 : (ru.id == run.id) = false :=
        bool_not_true (List.all_eq_true.mp hfreshRun ru hru1)
      rw [hrow] at hid
      simp [hid] at h2
    · simp only [List.mem_singleton] at hru1
      subst hru1
      exact hstat

/-- C5: under a fresh run id, every engine invocation commits the result
insert and the success transition together: the final committed store
still satisfies that no result row references a failed run, a failed final
run leaves the results table exactly as before the attempt, and a
successful final run appends exactly one result row referencing it. -/
theorem atomicCommitC5 :
    ∀ (provider_name api_key_name : String)
      (fetch_fn : String → String → Except String Raw)
      (normalize_fn : Raw → String → Normalized)
      (env : String → Option String)
      (run_id date started_at created_at finished_at : String) (db : DB),
      db.runs.all (fun r => !(r.id == run_id)) = true →
      db.results.all (fun r => !(r.run_id == run_id)) = true →
      noFailedRef db →
      ∃ db1 dbF code,
        run_collector provider_name fetch_fn normalize_fn api_key_name env
            run_id date started_at created_at finished_at db =
          .ok ([db1, dbF], code) ∧
        noFailedRef dbF ∧
        ∀ r, findRun dbF run_id = some r →
          (r.status = .failed → dbF.results = db.results) ∧
          (r.status = .success →
            ∃ row, dbF.results = db.results ++ [row] ∧ row.run_id = run_id) := by
  intro p key fetch norm env rid date sa ca fa db hfreshRun hfreshRes hinv
  cases hkey : truthy (env key) with
  | false =>
    refine ⟨_, _, 1,
      run_collector_missing_key p fetch norm key env rid date sa ca fa db
        hfreshRun hkey, ?_, ?_⟩
    · exact noFailedRef_append db
        (setRunFailed fa (key ++ " not found in .env") (startedRun p rid sa))
        db.next_result_id hinv hfreshRes
    · intro r hr
      have hf := find_append_of_all_not hfreshRun
        (x := setRunFailed fa (key ++ " not found in .env") (startedRun p rid sa))
        (by simp [startedRun, setRunFailed])
      rw [findRun] at hr
      rw [hf] at hr
      injection hr with hr
      subst hr
      exact ⟨fun _ => rfl, fun hst => by simp [setRunFailed, startedRun] at hst⟩
  | true =>
    cases hres : hasResult db p date with
    | true =>
      refine ⟨_, _, 0,
        run_collector_skip p fetch norm key env rid date sa ca fa db
          hfreshRun hkey hres, ?_, ?_⟩
      · exact noFailedRef_append db
          (setRunOutcome .skipped fa (startedRun p rid sa))
          db.next_result_id hinv hfreshRes
      · intro r hr
        have hf := find_append_of_all_not hfreshRun
          (x := setRunOutcome .skipped fa (startedRun p rid sa))
          (by simp [startedRun, setRunOutcome])
        rw [findRun] at hr
        rw [hf] at hr
        injection hr with hr
        subst hr
        refine ⟨fun hst => ?_, fun hst => ?_⟩ <;>
          simp [setRunOutcome, startedRun] at hst
    | false =>
      cases hfetch : fetch ((env key).getD "") date with
      | error msg =>
        refine ⟨_, _, 1,
          run_collector_fetch_error p fetch norm key env rid date sa ca fa db
            msg hfreshRun hkey hres hfetch, ?_, ?_⟩
        · exact noFailedRef_append db
            (setRunFailed fa msg (startedRun p rid sa))
            db.next_result_id hinv hfreshRes
        · intro r hr
          have hf := find_append_of_all_not hfreshRun
            (x := setRunFailed fa msg (startedRun p rid sa))
            (by simp [startedRun, setRunFailed])
          rw [findRun] at hr
          rw [hf] at hr
          injection hr with hr
          subst hr
          exact ⟨fun _ => rfl, fun hst => by simp [setRunFailed, startedRun] at hst⟩
      | ok raw =>
        cases hdup : db.results.any (fun r =>
            r.provider == (norm raw date).provider &&
            r.date == (norm raw date).date) with
        | true =>
          refine ⟨_, _, 1,
            run_collector_insert_error p fetch norm key env rid date sa ca fa db
              raw hfreshRun hkey hres hfetch hdup, ?_, ?_⟩
          · exact noFailedRef_append db
              (setRunFailed fa
                "UNIQUE constraint failed: results.provider, results.date"
                (startedRun p rid sa))
              db.next_result_id hinv hfreshRes
          · intro r hr
            have hf := find_append_of_all_not hfreshRun
              (x := setRunFailed fa
                "UNIQUE constraint failed: results.provider, results.date"
                (startedRun p rid sa))
              (by simp [startedRun, setRunFailed])
            rw [findRun] at hr
            rw [hf] at hr
            injection hr with hr
            subst hr
            exact ⟨fun _ => rfl, fun hst => by simp [setRunFailed, startedRun] at hst⟩
        | false =>
          refine ⟨_, _, 0,
            run_collector_success p fetch norm key env rid date sa ca fa db
              raw hfreshRun hkey hres hfetch hdup, ?_, ?_⟩
          · exact noFailedRef_insert db
              (setRunOutcome .success fa (startedRun p rid sa))
              { id := db.next_result_id, run_id := rid,
                provider := (norm raw date).provider,
                date := (norm raw date).date,
                tokens := (norm raw date).tokens,
                cost := (norm raw date).cost,
                raw_json := (norm raw date).raw_json,
                created_at := ca }
              (db.next_result_id + 1) hinv
              (by simp [setRunOutcome, startedRun]) rfl hfreshRun
          · intro r hr
            have hf := find_append_of_all_not hfreshRun
              (x := setRunOutcome .success fa (startedRun p rid sa))
              (by simp [startedRun, setRunOutcome])
            rw [findRun] at hr
            rw [hf] at hr
            injection hr with hr
            subst hr
            refine ⟨fun hst => by simp [setRunOutcome, startedRun] at hst,
              fun _ => ⟨_, rfl, rfl⟩⟩

/-- Witness for C5 at a concrete store: the missing-credential attempt
against demoDB. -/
theorem atomicCommitC5_witness :
    (demoDB.runs.all (fun r => !(r.id == "r9")) = true) ∧
    (demoDB.results.all (fun r => !(r.run_id == "r9")) = true) ∧
    noFailedRef demoDB ∧
    (∃ db1 dbF code,
      run_collector "OpenAI" (fun _ _ => .ok []) normalize_openai_data
          "OPENAI_API_KEY" (fun _ => none) "r9" "2024-01-01" "s" "c" "f" demoDB =
        .ok ([db1, dbF], code) ∧
      noFailedRef dbF ∧
      ∀ r, findRun dbF "r9" = some r →
        (r.status = .failed → dbF.results = demoDB.results) ∧
        (r.status = .success →
          ∃ row, dbF.results = demoDB.results ++ [row] ∧ row.run_id = "r9")) :=
  ⟨by decide, by decide, by simp [noFailedRef, demoDB],
   atomicCommitC5 "OpenAI" "OPENAI_API_KEY" (fun _ _ => .ok [])
     normalize_openai_data (fun _ => none) "r9" "2024-01-01" "s" "c" "f" demoDB
     (by decide) (by decide) (by simp [noFailedRef, demoDB])⟩

/-- C6: every engine invocation commits exactly two store states: in the
first the new run exists with status running, in the second it has exactly
one of the three terminal statuses; and every run row already present
(in particular every terminal one) is carried unchanged into both commits
— no transition out of a terminal state and no deletion. -/
theorem runLifecycleC6 :
    ∀ (provider_name api_key_name : String)
      (fetch_fn : String → String → Except String Raw)
      (normalize_fn : Raw → String → Normalized)
      (env : String → Option String)
      (run_id date started_at created_at finished_at : String) (db : DB),
      db.runs.all (fun r => !(r.id == run_id)) = true →
      ∃ db1 dbF code,
        run_collector provider_name fetch_fn normalize_fn api_key_name env
            run_id date started_at created_at finished_at db =
          .ok ([db1, dbF], code) ∧
        (∃ r0, findRun db1 run_id = some r0 ∧ r0.status = .running) ∧
        (∃ r1, findRun dbF run_id = some r1 ∧
          (r1.status = .success ∨ r1.status = .skipped ∨ r1.status = .failed)) ∧
        (∀ r ∈ db.runs, r ∈ db1.runs ∧ r ∈ dbF.runs) := by
  intro p key fetch norm env rid date sa ca fa db hfreshRun
  cases hkey : truthy (env key) with
  | false =>
    refine ⟨_, _, 1,
      run_collector_missing_key p fetch norm key env rid date sa ca fa db
        hfreshRun hkey,
      ⟨startedRun p rid sa,
        find_append_of_all_not hfreshRun (by simp [startedRun]), rfl⟩,
      ⟨_, find_append_of_all_not hfreshRun (by simp [startedRun, setRunFailed]),
        Or.inr (Or.inr rfl)⟩,
      fun r hrm => ⟨List.mem_append_left _ hrm, List.mem_append_left _ hrm⟩⟩
  | true =>
    cases hres : hasResult db p date with
    | true =>
      refine ⟨_, _, 0,
        run_collector_skip p fetch norm key env rid date sa ca fa db
          hfreshRun hkey hres,
        ⟨startedRun p rid sa,
          find_append_of_all_not hfreshRun (by simp [startedRun]), rfl⟩,
        ⟨_, find_append_of_all_not hfreshRun
            (by simp [startedRun, setRunOutcome]),
          Or.inr (Or.inl rfl)⟩,
        fun r hrm => ⟨List.mem_append_left _ hrm, List.mem_append_left _ hrm⟩⟩
    | false =>
      cases hfetch : fetch ((env key).getD "") date with
      | error msg =>
        refine ⟨_, _, 1,
          run_collector_fetch_error p fetch norm key env rid date sa ca fa db
            msg hfreshRun hkey hres hfetch,
          ⟨startedRun p rid sa,
            find_append_of_all_not hfreshRun (by simp [startedRun]), rfl⟩,
          ⟨_, find_append_of_all_not hfreshRun
              (by simp [startedRun, setRunFailed]),
            Or.inr (Or.inr rfl)⟩,
          fun r hrm => ⟨List.mem_append_left _ hrm, List.mem_append_left _ hrm⟩⟩
      | ok raw =>
        cases hdup : db.results.any (fun r =>
            r.provider == (norm raw date).provider &&
            r.date == (norm raw date).date) with
        | true =>
          refine ⟨_, _, 1,
            run_collector_insert_error p fetch norm key env rid date sa ca fa db
              raw hfreshRun hkey hres hfetch hdup,
            ⟨startedRun p rid sa,
              find_append_of_all_not hfreshRun (by simp [startedRun]), rfl⟩,
            ⟨_, find_append_of_all_not hfreshRun
                (by simp [startedRun, setRunFailed]),
              Or.inr (Or.inr rfl)⟩,
            fun r hrm => ⟨List.mem_append_left _ hrm, List.mem_append_left _ hrm⟩⟩
        | false =>
          refine ⟨_, _, 0,
            run_collector_success p fetch norm key env rid date sa ca fa db
              raw hfreshRun hkey hres hfetch hdup,
            ⟨startedRun p rid sa,
              find_append_of_all_not hfreshRun (by simp [startedRun]), rfl⟩,
            ⟨_, find_append_of_all_not hfreshRun
                (by simp [startedRun, setRunOutcome]),
              Or.inl rfl⟩,
            fun r hrm => ⟨List.mem_append_left _ hrm, List.mem_append_left _ hrm⟩⟩

/-- Witness for C6: a successful OpenAI collection against demoDB. -/
theorem runLifecycleC6_witness :
    (demoDB.runs.all (fun r => !(r.id == "r9")) = true) ∧
    (∃ db1 dbF code,
      run_collector "OpenAI" (fun _ _ => .ok [("total_tokens", Val.int 500)])
          normalize_openai_data "OPENAI_API_KEY" envBothKeys
          "r9" "2024-01-01" "s" "c" "f" demoDB = .ok ([db1, dbF], code) ∧
      (∃ r0, findRun db1 "r9" = some r0 ∧ r0.status = .running) ∧
      (∃ r1, findRun dbF "r9" = some r1 ∧
        (r1.status = .success ∨ r1.status = .skipped ∨ r1.status = .failed)) ∧
      (∀ r ∈ demoDB.runs, r ∈ db1.runs ∧ r ∈ dbF.runs)) :=
  ⟨by decide,
   runLifecycleC6 "OpenAI" "OPENAI_API_KEY"
     (fun _ _ => .ok [("total_tokens", Val.int 500)]) normalize_openai_data
     envBothKeys "r9" "2024-01-01" "s" "c" "f" demoDB (by decide)⟩

/-- C7: both normalize functions are total Lean functions returning the
canonical shape (provider and date fixed as claimed), tokens defaults to
the integer 0 and cost to 0.0 when the numeric fields are absent, and for
the payload with total_tokens 500 and total_cost 1.23 a full collection
stores a result row with tokens 500 and cost 1.23 and ends the run with
status success. -/
theorem normalizeTotalC7 :
    (∀ (raw : Raw) (date : String),
      (normalize_openai_data raw date).provider = "OpenAI" ∧
      (normalize_openai_data raw date).date = date ∧
      (normalize_anthropic_data raw date).provider = "Anthropic" ∧
      (normalize_anthropic_data raw date).date = date) ∧
    (∀ (raw : Raw) (date : String),
      raw.find? (fun p => p.1 == "total_tokens") = none →
      (normalize_openai_data raw date).tokens = Val.int 0 ∧
      (normalize_anthropic_data raw date).tokens = Val.int 0) ∧
    (∀ (raw : Raw) (date : String),
      raw.find? (fun p => p.1 == "total_cost") = none →
      (normalize_openai_data raw date).cost = Val.num 0 ∧
      (normalize_anthropic_data raw date).cost = Val.num 0) ∧
    (∃ db1 dbF,
      run_collector "OpenAI" (fun _ _ => .ok scenarioRaw) normalize_openai_data
          "OPENAI_API_KEY" envBothKeys "rs" "2024-01-01" "s" "c" "f" emptyDB =
        .ok ([db1, dbF], 0) ∧
      (∃ row, dbF.results = [row] ∧ row.tokens = Val.int 500 ∧
        row.cost = Val.num 1.23 ∧ row.provider = "OpenAI" ∧
        row.date = "2024-01-01") ∧
      (∃ r, findRun dbF "rs" = some r ∧ r.status = .success)) := by
  refine ⟨fun raw date => ⟨rfl, rfl, rfl, rfl⟩, ?_, ?_, ?_⟩
  · intro raw date h
    constructor <;>
      simp [normalize_openai_data, normalize_anthropic_data, rawGet, h]
  · intro raw date h
    constructor <;>
      simp [normalize_openai_data, normalize_anthropic_data, rawGet, h]
  · exact ⟨_, _, rfl, ⟨_, rfl, rfl, rfl, rfl, rfl⟩, ⟨_, rfl, rfl⟩⟩

/-- Witness for C7: the defaults fire on the empty payload. -/
theorem normalizeTotalC7_witness :
    (([] : Raw).find? (fun p => p.1 == "total_tokens") = none ∧
      (normalize_openai_data [] "2024-01-01").tokens = Val.int 0 ∧
      (normalize_anthropic_data [] "2024-01-01").tokens = Val.int 0) ∧
    (([] : Raw).find? (fun p => p.1 == "total_cost") = none ∧
      (normalize_openai_data [] "2024-01-01").cost = Val.num 0 ∧
      (normalize_anthropic_data [] "2024-01-01").cost = Val.num 0) :=
  ⟨⟨rfl, (normalizeTotalC7.2.1 [] "2024-01-01" rfl).1,
    (normalizeTotalC7.2.1 [] "2024-01-01" rfl).2⟩,
   ⟨rfl, (normalizeTotalC7.2.2.1 [] "2024-01-01" rfl).1,
    (normalizeTotalC7.2.2.1 [] "2024-01-01" rfl).2⟩⟩

lemma mem_insertByCreatedDesc {x b : ResultRow} {l : List ResultRow} :
    b ∈ insertByCreatedDesc x l ↔ b = x ∨ b ∈ l := by
  induction l with
  | nil => simp [insertByCreatedDesc]
  | cons y ys ih =>
    rw [insertByCreatedDesc]
    by_cases hc : y.created_at ≤ x.created_at
    · rw [if_pos hc]
      simp [List.mem_cons]
    · rw [if_neg hc]
      simp [List.mem_cons, ih]
      tauto

lemma pairwise_insertByCreatedDesc (x : ResultRow) (l : List ResultRow)
    (h : l.Pairwise (fun a b => b.created_at ≤ a.created_at)) :
    (insertByCreatedDesc x l).Pairwise (fun a b => b.created_at ≤ a.created_at) := by
  induction l with
  | nil => simp [insertByCreatedDesc]
  | cons y ys ih =>
    rw [insertByCreatedDesc]
    have h2 := List.pairwise_cons.mp h
    by_cases hc : y.created_at ≤ x.created_at
    · rw [if_pos hc]
      refine List.Pairwise.cons ?_ h
      intro b hb
      rcases List.mem_cons.mp hb with h1 | h1
      · rw [h1]
        exact hc
      · exact le_trans (h2.1 b h1) hc
    · rw [if_neg hc]
      refine List.Pairwise.cons ?_ (ih h2.2)
      intro b hb
      rcases mem_insertByCreatedDesc.mp hb with h1 | h1
      · rw [h1]
        exact le_of_not_le hc
      · exact h2.1 b h1

/-- The model of ORDER BY created_at DESC really is sorted descending. -/
lemma pairwise_sortResultsDesc (l : List ResultRow) :
    (sortResultsDesc l).Pairwise (fun a b => b.created_at ≤ a.created_at) := by
  induction l with
  | nil => simp [sortResultsDesc]
  | cons x xs ih => exact pairwise_insertByCreatedDesc x _ ih

/-- C8: the export raises its validation error, before touching the store,
exactly for table names outside the allow-list (including the injection
string), and for the two allowed names it succeeds with a first line
listing exactly that table's columns; the results rows come back ordered
by created_at descending (the runs table has no created_at column). -/
theorem exportAllowListC8 :
    (∀ (db : DB) (table : String),
      ALLOWED_TABLES.contains table = false →
      export_results_to_csv db table =
        .error ("Invalid table name: " ++ table ++ ". Must be one of: results, runs")) ∧
    (∀ db : DB, ∃ rows, export_results_to_csv db "results" = .ok rows ∧
      rows.head? = some resultsColumns) ∧
    (∀ db : DB, ∃ rows, export_results_to_csv db "runs" = .ok rows ∧
      rows.head? = some runsColumns) ∧
    (∀ db : DB, export_results_to_csv db "results" =
      .ok (resultsColumns :: (sortResultsDesc db.results).map renderResultRow) ∧
      (sortResultsDesc db.results).Pairwise (fun a b => b.created_at ≤ a.created_at)) ∧
    (export_results_to_csv emptyDB "results; DROP TABLE runs;--" =
      .error ("Invalid table name: results; DROP TABLE runs;--. Must be one of: results, runs")) := by
  refine ⟨?_, fun db => ⟨_, rfl, rfl⟩, fun db => ⟨_, rfl, rfl⟩,
    fun db => ⟨rfl, pairwise_sortResultsDesc _⟩, rfl⟩
  intro db table h
  rw [export_results_to_csv, if_pos h]

/-- Witness for C8: the arbitrary table name bogus is rejected. -/
theorem exportAllowListC8_witness :
    ALLOWED_TABLES.contains "bogus" = false ∧
    export_results_to_csv emptyDB "bogus" =
      .error ("Invalid table name: bogus. Must be one of: results, runs") :=
  ⟨by decide, exportAllowListC8.1 emptyDB "bogus" (by decide)⟩

/-- C9 counterexample: the invocation main.py --task supplies no task
value, yet main returns exit code 0 and prints no usage message — the
source falls through the final `return 0` because its task branch requires
both argv[1] = --task and a third argument. -/
theorem mainCliC9_counterexample :
    main ["main.py", "--task"] (fun _ _ => .ok []) (fun _ _ => .ok [])
        envBothKeys "2024-01-01" metaO metaA emptyDB =
      .ok (emptyDB, 0, []) := rfl

/-- C9 amended: an invocation with no arguments at all produces the usage
message and exit code 1, and an invocation of the form --task T with an
unrecognized T produces an error message and exit code 1; however an
invocation that supplies --task with no task value returns exit code 0
with no usage message. -/
theorem mainCliC9_amended :
    (∀ (argv : List String)
       (fetchO fetchA : String → String → Except String Raw)
       (env : String → Option String) (date : String) (m1 m2 : RunMeta)
       (db : DB),
      argv.length < 2 →
      main argv fetchO fetchA env date m1 m2 db = .ok (db, 1, usageMessages)) ∧
    (∀ (t : String) (fetchO fetchA : String → String → Except String Raw)
       (env : String → Option String) (date : String) (m1 m2 : RunMeta)
       (db : DB),
      t ≠ "fetch_openai" → t ≠ "fetch_anthropic" → t ≠ "run_all" → t ≠ "export" →
      main ["main.py", "--task", t] fetchO fetchA env date m1 m2 db =
        .ok (db, 1, ["Unknown task: " ++ t])) ∧
    (∀ (fetchO fetchA : String → String → Except String Raw)
       (env : String → Option String) (date : String) (m1 m2 : RunMeta)
       (db : DB),
      main ["main.py", "--task"] fetchO fetchA env date m1 m2 db =
        .ok (db, 0, [])) := by
  refine ⟨?_, ?_, fun fetchO fetchA env date m1 m2 db => rfl⟩
  · intro argv fetchO fetchA env date m1 m2 db h
    rw [main, if_pos h]
  · intro t fetchO fetchA env date m1 m2 db h1 h2 h3 h4
    have e1 : (t == "fetch_openai") = false := beq_eq_false_iff_ne.mpr h1
    have e2 : (t == "fetch_anthropic") = false := beq_eq_false_iff_ne.mpr h2
    have e3 : (t == "run_all") = false := beq_eq_false_iff_ne.mpr h3
    have e4 : (t == "export") = false := beq_eq_false_iff_ne.mpr h4
    simp [main, e1, e2, e3, e4, List.getD]

/-- Witness for the amended C9 at concrete inputs. -/
theorem mainCliC9_witness :
    (["main.py"].length < 2 ∧
      main ["main.py"] (fun _ _ => .ok []) (fun _ _ => .ok [])
          envBothKeys "2024-01-01" metaO metaA emptyDB =
        .ok (emptyDB, 1, usageMessages)) ∧
    ("bogus" ≠ "fetch_openai" ∧
      main ["main.py", "--task", "bogus"] (fun _ _ => .ok []) (fun _ _ => .ok [])
          envBothKeys "2024-01-01" metaO metaA emptyDB =
        .ok (emptyDB, 1, ["Unknown task: bogus"])) :=
  ⟨⟨by decide,
    mainCliC9_amended.1 ["main.py"] (fun _ _ => .ok []) (fun _ _ => .ok [])
      envBothKeys "2024-01-01" metaO metaA emptyDB (by decide)⟩,
   ⟨by decide,
    mainCliC9_amended.2.1 "bogus" (fun _ _ => .ok []) (fun _ _ => .ok [])
      envBothKeys "2024-01-01" metaO metaA emptyDB
      (by decide) (by decide) (by decide) (by decide)⟩⟩

/-- C10: a provider whose credential variable is unset is skipped by the
batch loop before the engine runs — the store comes back exactly unchanged
with nothing attempted and the configuration-skip counter incremented —
whereas calling run_collector directly for it does create a run, which
ends failed with the missing-key error and results untouched. -/
theorem missingCredentialC10 :
    (∀ (c : CollectorCfg) (m : RunMeta) (env : String → Option String)
       (date : String) (db : DB),
      truthy (env c.key_name) = false →
      runAllLoop [(c, m)] env date db = .ok (db, [], 1)) ∧
    (∀ (provider_name api_key_name : String)
       (fetch_fn : String → String → Except String Raw)
       (normalize_fn : Raw → String → Normalized)
       (env : String → Option String)
       (run_id date started_at created_at finished_at : String) (db : DB),
      env api_key_name = none →
      db.runs.all (fun r => !(r.id == run_id)) = true →
      ∃ db1 dbF,
        run_collector provider_name fetch_fn normalize_fn api_key_name env
            run_id date started_at created_at finished_at db =
          .ok ([db1, dbF], 1) ∧
        dbF.results = db.results ∧
        ∃ r, findRun dbF run_id = some r ∧ r.status = .failed ∧
          r.error = some (api_key_name ++ " not found in .env")) := by
  constructor
  · intro c m env date db h
    simp [runAllLoop, h]
  · intro p key fetch norm env rid date sa ca fa db henv hfresh
    have hkey : truthy (env key) = false := by rw [henv]; rfl
    refine ⟨_, _,
      run_collector_missing_key p fetch norm key env rid date sa ca fa db
        hfresh hkey, rfl, ?_⟩
    refine ⟨setRunFailed fa (key ++ " not found in .env") (startedRun p rid sa),
      ?_, rfl, rfl⟩
    exact find_append_of_all_not hfresh (by simp [startedRun, setRunFailed])

/-- Witness for C10 at concrete inputs: an unset OPENAI_API_KEY. -/
theorem missingCredentialC10_witness :
    (truthy ((fun _ => none) "OPENAI_API_KEY") = false ∧
      runAllLoop
          [({ provider := "OpenAI", fetch := fun _ _ => .ok [],
              normalize := normalize_openai_data,
              key_name := "OPENAI_API_KEY" }, metaO)]
          (fun _ => none) "2024-01-01" demoDB = .ok (demoDB, [], 1)) ∧
    ((fun _ => (none : Option String)) "OPENAI_API_KEY" = none ∧
      ∃ db1 dbF,
        run_collector "OpenAI" (fun _ _ => .ok []) normalize_openai_data
            "OPENAI_API_KEY" (fun _ => none) "r9" "2024-01-01" "s" "c" "f"
            demoDB = .ok ([db1, dbF], 1) ∧
        dbF.results = demoDB.results ∧
        ∃ r, findRun dbF "r9" = some r ∧ r.status = .failed ∧
          r.error = some ("OPENAI_API_KEY" ++ " not found in .env")) :=
  ⟨⟨rfl,
    missingCredentialC10.1
      { provider := "OpenAI", fetch := fun _ _ => .ok [],
        normalize := normalize_openai_data, key_name := "OPENAI_API_KEY" }
      metaO (fun _ => none) "2024-01-01" demoDB rfl⟩,
   ⟨rfl,
    missingCredentialC10.2 "OpenAI" "OPENAI_API_KEY" (fun _ _ => .ok [])
      normalize_openai_data (fun _ => none) "r9" "2024-01-01" "s" "c" "f"
      demoDB rfl (by decide)⟩⟩

end AgentOS
